import Mathlib

/-!
Verification of the gate-traversal engine and helpers of the
hypeddit-soundcloud-downloader repository, as a shallow embedding in Lean.

The embedded sources are:
* `src/utils.ts` — `loadCookies`, `isLosslessFormat`, `isMp3Format`,
  `losslessToMp3Filename`;
* `src/jobStore.ts` — the playwright `HypedditDownloader.downloadAudio`
  gate loop and `close`, and the puppeteer `HypedditDownloader.handleDownloadSlide`
  download-event tracker with its 10-second re-click fallback;
* `src/server.ts` — `runDownloadProcess`'s handling of the traversal result;
* `src/unnamed/part_003` — a historical `HypedditDownloader.close` variant.

JavaScript strings are modelled as Lean `String` where only equality and
concatenation matter, and as `List Char` where case conversion and suffix
matching matter.  Fallible code is modelled with `Except`/`Option`.
-/

/-! ## Cookie loader (src/utils.ts, loadCookies) -/

/-- Input cookie record shape (src `LocalCookieData`, src/unnamed/part_001):
optional fields are `Option`; a JS field holding the empty string is
`some ""`, an absent field is `none`.  `expirationDate` is a JS number,
modelled as an integer (its value is irrelevant to the claims). -/
structure LocalCookieData where
  name : String
  value : String
  domain : String
  path : Option String
  expirationDate : Option Int
  httpOnly : Option Bool
  secure : Option Bool
  sameSite : Option String
deriving Repr, DecidableEq

/-- Output cookie shape handed to the browser driver (puppeteer `CookieData`):
fields that `loadCookies` sets only conditionally are `Option` (absent = `none`). -/
structure CookieData where
  name : String
  value : String
  domain : String
  path : String
  expires : Option Int
  httpOnly : Option Bool
  secure : Option Bool
  sameSite : Option String
deriving Repr, DecidableEq

/-- Truthiness of a JS string option: `undefined` and `""` are falsy. -/
def jsStrTruthy : Option String → Bool
  | none => false
  | some s => s ≠ ""

/-- Embeds the per-record body of `loadCookies` (src/utils.ts lines 37-59):
`path: cookie.path || '/'`, conditional copies of `expirationDate`
(JS number `0` is falsy), `httpOnly`, `secure`, and `sameSite` where the
literal `"unspecified"` (and the falsy `""`) is dropped. -/
def loadCookie (cookie : LocalCookieData) : CookieData :=
  { name := cookie.name
    value := cookie.value
    domain := cookie.domain
    path := match cookie.path with
      | none => "/"
      | some p => if p = "" then "/" else p
    expires := match cookie.expirationDate with
      | none => none
      | some e => if e = 0 then none else some e
    httpOnly := cookie.httpOnly
    secure := cookie.secure
    sameSite := match cookie.sameSite with
      | none => none
      | some s => if s = "" ∨ s = "unspecified" then none else some s }

/-- Embeds `loadCookies` (src/utils.ts lines 33-60) after the JSON parse:
the parsed array is mapped record-wise through `loadCookie`. -/
def loadCookies (cookiesData : List LocalCookieData) : List CookieData :=
  cookiesData.map loadCookie

/-! ## Audio filename format helpers (src/utils.ts lines 109-129)

Filenames are modelled as `List Char` (a JS string); `toLowerCase` is a
character map and `endsWith` is a suffix test. -/

/-- Embeds `String.prototype.toLowerCase` character-wise. -/
def jsToLower (s : List Char) : List Char :=
  s.map Char.toLower

/-- Embeds `String.prototype.endsWith`: `t` is a suffix of `s`. -/
def jsEndsWith (s t : List Char) : Bool :=
  t.isSuffixOf s

/-- Embeds `isLosslessFormat` (src/utils.ts lines 109-117). -/
def isLosslessFormat (filename : List Char) : Bool :=
  let lower := jsToLower filename
  jsEndsWith lower ".wav".data || jsEndsWith lower ".aiff".data ||
    jsEndsWith lower ".aif".data || jsEndsWith lower ".flac".data

/-- Embeds `isMp3Format` (src/utils.ts lines 119-121). -/
def isMp3Format (filename : List Char) : Bool :=
  jsEndsWith (jsToLower filename) ".mp3".data

/-- Embeds one `.replace(re, '.mp3')` step where `re` is an anchored,
case-insensitive suffix pattern (such as the regex matching ".wav" at the
string end): if the lowercased string ends with the lowercase suffix `suf`,
that suffix is replaced by ".mp3", otherwise the string is unchanged. -/
def replaceSuffixWithMp3 (suf : List Char) (s : List Char) : List Char :=
  if jsEndsWith (jsToLower s) suf then
    s.take (s.length - suf.length) ++ ".mp3".data
  else s

/-- Embeds `losslessToMp3Filename` (src/utils.ts lines 123-129): the four
anchored case-insensitive replaces applied in source order
(wav, then aiff, then aif, then flac). -/
def losslessToMp3Filename (filename : List Char) : List Char :=
  replaceSuffixWithMp3 ".flac".data
    (replaceSuffixWithMp3 ".aif".data
      (replaceSuffixWithMp3 ".aiff".data
        (replaceSuffixWithMp3 ".wav".data filename)))

/-! ## Gate-traversal engine
(src/jobStore.ts, playwright `HypedditDownloader.downloadAudio`, lines 984-1010)

The per-job downloader state the gate loop reads and writes is the
`downloadFilename` instance field (null until the download handler's
transfer-start listener sets it).  Gate handlers are page interactions; for
the traversal claims they are abstracted as a `HandlerSpec`: for each token,
a state transformer that either returns the updated downloader state or
throws (`Except.error`).  The traversal additionally produces a trace of
observable scheduling events so ordering claims can be stated. -/

/-- Downloader state visible to the gate loop: `this.downloadFilename`. -/
structure DownloaderState where
  downloadFilename : Option String
deriving Repr, DecidableEq

/-- Behaviour of the five gate handlers during one traversal. -/
def HandlerSpec : Type :=
  String → DownloaderState → Except String DownloaderState

/-- Scheduling events of the gate loop, in execution order:
`invoke tok` — the handler looked up for `tok` is invoked (`await gate(page)` starts);
`settled tok` — that handler's returned promise has settled successfully;
`invokeInherited tok` — the truthy junk value the lookup found for `tok` on
the object's prototype chain (not a gate handler) is called;
`delay ms` — the fixed settle delay (`await timeout(1_000)`) after a gate. -/
inductive TraceEv where
  | invoke (tok : String)
  | settled (tok : String)
  | invokeInherited (tok : String)
  | delay (ms : Nat)
deriving Repr, DecidableEq

/-- The repository URL interpolated into the unknown-gate error message.
It comes from `package.json` (`repository.url`), which is outside `src/`;
the value (from the README's clone URL) is irrelevant to every claim. -/
def REPO_URL : String := "https://github.com/D3SOX/hypeddit-soundcloud-downloader"

/-- The keys of the fixed dispatch table `gates` (src/jobStore.ts lines 975-981). -/
def gateTokens : List String := ["email", "sc", "ig", "sp", "dw"]

/-- The property names every JS object literal inherits from
`Object.prototype` (ECMA-262; JavaScriptCore, the engine under Bun, exposes
exactly these): a lookup `gates[tok]` for such a `tok` finds the inherited
member rather than `undefined`. -/
def objectProtoProps : List String :=
  ["constructor", "hasOwnProperty", "isPrototypeOf", "propertyIsEnumerable",
    "toLocaleString", "toString", "valueOf", "__proto__",
    "__defineGetter__", "__defineSetter__", "__lookupGetter__",
    "__lookupSetter__"]

/-- What the JS lookup `gates[gateName]` on the object literal can yield:
one of the five gate handlers (an own property); a truthy member inherited
from `Object.prototype` (so the `if (!gate) throw` guard does not fire);
or `undefined`. -/
inductive GateLookup where
  | handler (gate : DownloaderState → Except String DownloaderState)
  | inherited (name : String)
  | undefinedLookup

/-- Embeds the dispatch-table lookup `gates[gateName]` (src/jobStore.ts
line 988) with JavaScript property-lookup semantics: the object literal of
lines 975-981 owns the five known tokens, inherits the `Object.prototype`
members through its prototype chain, and yields `undefined` for every other
token. -/
def gates (h : HandlerSpec) (tok : String) : GateLookup :=
  if tok ∈ gateTokens then .handler (h tok)
  else if tok ∈ objectProtoProps then .inherited tok
  else .undefinedLookup

/-- The engine-produced TypeError message text.  Its wording (JavaScriptCore
names the local variable `gate`, never the token) comes from the JS runtime,
not from the repository; it is opaque to every claim and modelled as a
constant. -/
def jsTypeErrorMsg : String := "TypeError"

/-- ECMA-262-determined result of `await gate(page)` when `gate` is a member
inherited from `Object.prototype`, called as a free function (`this` is
undefined — the module is strict-mode ESM) with the page as argument:
`constructor` is the `Object` function, which returns its object argument,
and `toString` returns the string for an undefined `this`, so both return
normally; `__proto__` reads as the non-callable `Object.prototype` object so
the call throws a TypeError, and every other member throws a TypeError while
coercing its undefined `this`.  The downloader state is never touched. -/
def protoInvokeResult (name : String) : Except String Unit :=
  if name = "constructor" ∨ name = "toString" then .ok ()
  else .error jsTypeErrorMsg

/-- Embeds the error thrown for an unrecognized gate token
(src/jobStore.ts lines 990-993). -/
def noHandlerMsg (tok : String) : String :=
  "No handler found for gate " ++ tok ++
    ". Please create an issue about this on " ++ REPO_URL ++ "/issues"

/-- Embeds the gate loop of `downloadAudio` (src/jobStore.ts lines 984-1005):
`for (const gateName of gateNames)`; a falsy token (null or "") is skipped
(`if (!gateName) continue`); a token whose lookup yields `undefined` throws
`noHandlerMsg`; a token whose lookup finds a truthy inherited
`Object.prototype` member passes the `if (!gate)` guard, so that junk value
is called in place of a handler (throwing the engine TypeError or returning,
per `protoInvokeResult`); a known token's handler is awaited (its thrown
error propagates unmodified).  After any successfully awaited call the fixed
`timeout(1_000)` settle delay runs before the next token.
Returns the event trace together with the traversal result. -/
def runGates (h : HandlerSpec) (st : DownloaderState) :
    List (Option String) → List TraceEv × Except String DownloaderState
  | [] => ([], .ok st)
  | none :: rest => runGates h st rest
  | some tok :: rest =>
    if tok = "" then
      runGates h st rest
    else
      match gates h tok with
      | .undefinedLookup => ([], .error (noHandlerMsg tok))
      | .inherited name =>
        match protoInvokeResult name with
        | .error e => ([.invokeInherited name], .error e)
        | .ok _ =>
          let tail := runGates h st rest
          (.invokeInherited name :: .delay 1000 :: tail.1, tail.2)
      | .handler gate =>
        match gate st with
        | .error e => ([.invoke tok], .error e)
        | .ok st' =>
          let tail := runGates h st' rest
          (.invoke tok :: .settled tok :: .delay 1000 :: tail.1, tail.2)

/-- Embeds `downloadAudio` from the gate-discovery result on
(src/jobStore.ts lines 984-1010): runs the gate loop and, when every gate
completed without an exception, resolves with `this.downloadFilename`. -/
def downloadAudio (h : HandlerSpec) (st : DownloaderState)
    (gateNames : List (Option String)) : List TraceEv × Except String (Option String) :=
  let run := runGates h st gateNames
  (run.1, run.2.map DownloaderState.downloadFilename)

/-- Outcome of the job layer's `runDownloadProcess` (src/server.ts lines 66-142):
`noFileError` — `downloadAudio` resolved null/empty and the job is put in the
distinguished error state "Download failed - no file received" (lines 107-110);
`ready` — a filename was received and the job proceeds;
`errorState msg` — `downloadAudio` threw and the catch block recorded `msg`. -/
inductive JobOutcome where
  | noFileError
  | ready (downloadFilename : String)
  | errorState (msg : String)
deriving Repr, DecidableEq

/-- Embeds `runDownloadProcess`'s treatment of the traversal result
(src/server.ts lines 101-141): a fresh downloader starts with
`downloadFilename = null`; a thrown error is caught and recorded; otherwise
`if (!downloadFilename)` (null or empty) yields the distinguished
no-file-received error state. -/
def runDownloadProcess (h : HandlerSpec) (gateNames : List (Option String)) :
    JobOutcome :=
  match (downloadAudio h ⟨none⟩ gateNames).2 with
  | .error m => .errorState m
  | .ok none => .noFileError
  | .ok (some f) => if f = "" then .noFileError else .ready f

/-- Gate handlers that interact with no page state: every invocation succeeds
and leaves the downloader state unchanged (used to instantiate theorems). -/
def idHandlers : HandlerSpec := fun _ st => .ok st

/-- Handlers where only the terminal download gate has an effect: it records
`filename` as the suggested filename of the started transfer. -/
def dwRecordingHandlers (filename : String) : HandlerSpec := fun tok st =>
  if tok = "dw" then .ok ⟨some filename⟩ else .ok st

/-- Spec-side description of the scheduling trace for a sequence of recognized
gates: per gate, invocation, settlement, then the fixed 1000 ms settle delay,
blocks concatenated in the discovered order. -/
def sequentialGateTrace (toks : List String) : List TraceEv :=
  toks.foldr (fun t acc => .invoke t :: .settled t :: .delay 1000 :: acc) []

/-! ## Download-completion tracker
(src/jobStore.ts, puppeteer `HypedditDownloader.handleDownloadSlide`,
lines 655-745)

The CDP event listeners are synchronous state transformers.  A `throw`
inside a listener propagates into the event emitter, not into the promise
the gate awaits; it is therefore recorded in `uncaughtListenerErrors` and —
crucially — never settles `downloadCompletePromise` (whose resolved value is
`completedWith`, `none` while pending: the promise has a resolve function and
no reject function, src lines 656-660). -/

/-- Terminal/live states of a `Browser.downloadProgress` CDP event. -/
inductive DwProgKind where
  | completed
  | inProgress (receivedBytes totalBytes : Nat)
  | canceled
deriving Repr, DecidableEq

/-- A browser download-lifecycle event as observed by the CDP session. -/
inductive DwEvent where
  | willBegin (guid : String) (suggestedFilename : String)
  | progress (guid : String) (kind : DwProgKind)
deriving Repr, DecidableEq

/-- State touched by the two CDP listeners:
`downloadGuid` — the tracked transfer identifier (null before transfer start);
`downloadFilename` — `this.downloadFilename`;
`completedWith` — the value `downloadCompleteResolve` was called with
(`none` while the completion promise is pending; a promise resolves once);
`progressReports` — the (receivedBytes, totalBytes) progress emissions;
`uncaughtListenerErrors` — messages of errors thrown inside a listener. -/
structure DwTrackerState where
  downloadGuid : Option String
  downloadFilename : Option String
  completedWith : Option String
  progressReports : List (Nat × Nat)
  uncaughtListenerErrors : List String
deriving Repr, DecidableEq

/-- Tracker state when the download gate attaches its listeners during a
fresh traversal (`downloadGuid = null`; `this.downloadFilename` still null). -/
def initialTracker : DwTrackerState :=
  ⟨none, none, none, [], []⟩

/-- Embeds the `Browser.downloadWillBegin` listener (src/jobStore.ts
lines 680-689): records the transfer identifier and suggested filename. -/
def onDownloadWillBegin (st : DwTrackerState) (guid suggestedFilename : String) :
    DwTrackerState :=
  { st with downloadGuid := some guid, downloadFilename := some suggestedFilename }

/-- Embeds the `Browser.downloadProgress` listener (src/jobStore.ts
lines 692-728).  The guard is `event.guid === downloadGuid &&
this.downloadFilename` (a null tracked guid never equals an event guid, and
a null/empty filename is falsy).  Inside the guard: `completed` resolves the
completion promise with `this.downloadFilename` (a resolve after the first
is a no-op); `inProgress` reports byte progress; `canceled` throws — the
throw happens inside the listener, so it lands in `uncaughtListenerErrors`
and does not settle the completion promise. -/
def onDownloadProgress (st : DwTrackerState) (guid : String) (kind : DwProgKind) :
    DwTrackerState :=
  if st.downloadGuid = some guid ∧ jsStrTruthy st.downloadFilename then
    match kind with
    | .completed =>
      { st with completedWith :=
          match st.completedWith with
          | some v => some v
          | none => st.downloadFilename }
    | .inProgress receivedBytes totalBytes =>
      { st with progressReports := st.progressReports ++ [(receivedBytes, totalBytes)] }
    | .canceled =>
      { st with uncaughtListenerErrors :=
          st.uncaughtListenerErrors ++ ["Download was canceled"] }
  else st

/-- One CDP event dispatched to the registered listeners. -/
def trackerStep (st : DwTrackerState) : DwEvent → DwTrackerState
  | .willBegin guid fn => onDownloadWillBegin st guid fn
  | .progress guid kind => onDownloadProgress st guid kind

/-- The tracker state after a sequence of CDP events. -/
def processDwEvents (st : DwTrackerState) (events : List DwEvent) : DwTrackerState :=
  events.foldl trackerStep st

/-- The completion promise the download gate awaits
(`downloadCompletePromise` in `Promise.all`, src/jobStore.ts lines 742-745)
has settled after the given events. -/
def downloadPromiseSettled (events : List DwEvent) : Bool :=
  (processDwEvents initialTracker events).completedWith.isSome

/-! ## Download-trigger re-click fallback
(puppeteer variant: src/jobStore.ts lines 730-745; playwright variant:
src/jobStore.ts lines 1236-1245)

Timing model: `startAt` is the arrival time, in milliseconds after the
trigger control's first click, of the transfer-start signal
(`Browser.downloadWillBegin` and the `download` event respectively);
`none` means it never arrives.  Each function returns the times at which the
variant clicks the trigger control. -/

/-- The fixed fallback delay of the puppeteer variant's
`setTimeout(..., 10_000)` (src/jobStore.ts line 739). -/
def FALLBACK_DELAY_MS : Nat := 10000

/-- No transfer-start signal is observed within the fallback delay. -/
def noStartWithinFallback (startAt : Option Nat) : Prop :=
  ∀ t, startAt = some t → FALLBACK_DELAY_MS < t

/-- Embeds the puppeteer variant's trigger clicks (src/jobStore.ts
lines 730-745): the click at time 0, and the `setTimeout` callback's second
click at `FALLBACK_DELAY_MS` if `downloadGuid` is still null then, that is,
if the transfer-start signal has not arrived within the fallback delay. -/
def puppeteerTriggerClicks (startAt : Option Nat) : List Nat :=
  match startAt with
  | none => [0, FALLBACK_DELAY_MS]
  | some t => if FALLBACK_DELAY_MS < t then [0, FALLBACK_DELAY_MS] else [0]

/-- Embeds the playwright variant's trigger clicks (src/jobStore.ts
lines 1238-1241): `page.click` runs exactly once, raced only against
`page.waitForEvent('download')`; no timer and no further click exist. -/
def playwrightTriggerClicks (_startAt : Option Nat) : List Nat :=
  [0]

/-! ## Browser session close
(playwright variant: src/jobStore.ts lines 1013-1015, `await this.browser?.close()`;
historical variant: src/unnamed/part_003 lines 525-527, `await this.browser.close()`)

A session's `browser` field is null-asserted and only assigned by the
initialization method, so before that call it is `undefined` (`none` here);
the driver handle itself carries a closed flag, and the drivers' own
`close()` resolves (without throwing) even on an already-closed handle. -/

/-- Session state: `none` before initialization; `some closed` afterwards,
where `closed` records whether the driver handle has been closed. -/
structure SessionState where
  browser : Option Bool
deriving Repr, DecidableEq

/-- Result of a `close()` call: the updated session, or the JS `TypeError`
from invoking a method on `undefined`. -/
inductive CloseResult where
  | ok (s : SessionState)
  | typeError
deriving Repr, DecidableEq

/-- Embeds `close()` of the playwright variant (src/jobStore.ts
lines 1013-1015): optional chaining makes the call a no-op when the session
was never initialized. -/
def closePlaywright (s : SessionState) : CloseResult :=
  match s.browser with
  | none => .ok s
  | some _ => .ok ⟨some true⟩

/-- Embeds `close()` of the src/unnamed/part_003 variant (lines 525-527):
no optional chaining, so `this.browser.close()` on a never-initialized
session dereferences `undefined` and throws a `TypeError`. -/
def closePart003 (s : SessionState) : CloseResult :=
  match s.browser with
  | none => .typeError
  | some _ => .ok ⟨some true⟩

/-! ## Theorems -/

/-! ### Claim C5 — cookie path defaulting -/

/-- Claim C5: for every input cookie record in the loaded cookie file whose
`path` field is missing or empty, the session cookie `loadCookies` produces
for that record (the one at the same array position) has path `"/"`;
a record supplying a non-empty path keeps it. -/
theorem loadCookies_path_default (cs : List LocalCookieData) (i : Nat)
    (c : LocalCookieData) (hc : cs[i]? = some c) :
    ∃ out : CookieData, (loadCookies cs)[i]? = some out ∧
      ((c.path = none ∨ c.path = some "") → out.path = "/") ∧
      (∀ p, c.path = some p → p ≠ "" → out.path = p) := by
  refine ⟨loadCookie c, ?_, ?_, ?_⟩
  · simp [loadCookies, List.getElem?_map, hc]
  · rintro (hp | hp) <;> simp [loadCookie, hp]
  · intro p hp hne
    simp [loadCookie, hp, hne]

/-- A concrete exported-cookie record with a missing `path` field. -/
def sampleCookieRecord : LocalCookieData :=
  ⟨"sid", "abc", "soundcloud.com", none, none, none, none, none⟩

/-- Witness for C5 at a concrete record with a missing path. -/
theorem loadCookies_path_default_witness :
    ([sampleCookieRecord] : List LocalCookieData)[0]? = some sampleCookieRecord ∧
    ∃ out : CookieData,
      (loadCookies [sampleCookieRecord])[0]? = some out ∧
        ((sampleCookieRecord.path = none ∨ sampleCookieRecord.path = some "") →
          out.path = "/") ∧
        (∀ p, sampleCookieRecord.path = some p → p ≠ "" → out.path = p) :=
  ⟨rfl, loadCookies_path_default [sampleCookieRecord] 0 sampleCookieRecord rfl⟩

/-! ### Claim C10 — lossless-to-mp3 filename conversion -/

theorem jsEndsWith_iff (s t : List Char) : jsEndsWith s t = true ↔ t <:+ s := by
  simp [jsEndsWith]

theorem jsToLower_append (a b : List Char) :
    jsToLower (a ++ b) = jsToLower a ++ jsToLower b := by
  simp [jsToLower]

theorem mp3_lower_fixed : jsToLower ".mp3".data = ".mp3".data := by decide

/-- The first character of the reversal of a list a given list is a suffix of. -/
theorem head_reverse_of_suffix (s t : List Char) (h : t <:+ s) (c : Char)
    (hc : t.reverse.head? = some c) : s.reverse.head? = some c := by
  obtain ⟨u, rfl⟩ := h
  rw [List.reverse_append]
  cases hr : t.reverse with
  | nil => rw [hr] at hc; cases hc
  | cons x xs =>
    rw [hr] at hc
    simpa using hc

/-- A string that ends in ".mp3" does not end in a suffix whose final
character differs from '3'. -/
theorem blocked_after_mp3 (a suf : List Char) (c : Char)
    (hc : suf.reverse.head? = some c) (hne : c ≠ '3') :
    jsEndsWith (jsToLower (a ++ ".mp3".data)) suf = false := by
  cases hE : jsEndsWith (jsToLower (a ++ ".mp3".data)) suf with
  | false => rfl
  | true =>
    exfalso
    have hs : suf <:+ jsToLower (a ++ ".mp3".data) := (jsEndsWith_iff _ _).mp hE
    have hcc := head_reverse_of_suffix _ _ hs c hc
    rw [jsToLower_append, mp3_lower_fixed, List.reverse_append] at hcc
    have h3 : (".mp3".data.reverse ++ (jsToLower a).reverse).head? = some '3' := by
      rfl
    rw [h3] at hcc
    exact hne (Option.some.inj hcc).symm

/-- Appending ".mp3" makes a filename an mp3 filename. -/
theorem isMp3Format_append_mp3 (a : List Char) :
    isMp3Format (a ++ ".mp3".data) = true := by
  rw [isMp3Format, jsEndsWith_iff, jsToLower_append, mp3_lower_fixed]
  exact List.suffix_append _ _

/-- A replace step whose pattern cannot match a ".mp3"-terminated string is
the identity on it. -/
theorem replace_noop_after_mp3 (a suf : List Char) (c : Char)
    (hc : suf.reverse.head? = some c) (hne : c ≠ '3') :
    replaceSuffixWithMp3 suf (a ++ ".mp3".data) = a ++ ".mp3".data := by
  rw [replaceSuffixWithMp3, blocked_after_mp3 a suf c hc hne]
  rfl

/-- A replace step whose suffix test fails is the identity. -/
theorem replace_noop_of_not_ends (suf s : List Char)
    (h : jsEndsWith (jsToLower s) suf = false) :
    replaceSuffixWithMp3 suf s = s := by
  rw [replaceSuffixWithMp3, h]
  rfl

/-- A replace step whose suffix test succeeds rewrites the suffix to ".mp3". -/
theorem replace_fires_of_ends (suf s : List Char)
    (h : jsEndsWith (jsToLower s) suf = true) :
    replaceSuffixWithMp3 suf s = s.take (s.length - suf.length) ++ ".mp3".data := by
  rw [replaceSuffixWithMp3, h]
  rfl

/-- Claim C10: every filename `isLosslessFormat` accepts is mapped by
`losslessToMp3Filename` to a filename `isMp3Format` accepts, and every
filename `isLosslessFormat` rejects is returned unchanged. -/
theorem losslessToMp3Filename_spec (s : List Char) :
    (isLosslessFormat s = true → isMp3Format (losslessToMp3Filename s) = true) ∧
      (isLosslessFormat s = false → losslessToMp3Filename s = s) := by
  constructor
  · intro hl
    cases hwav : jsEndsWith (jsToLower s) ".wav".data with
    | true =>
      rw [losslessToMp3Filename, replace_fires_of_ends _ _ hwav,
        replace_noop_after_mp3 _ ".aiff".data 'f' (by decide) (by decide),
        replace_noop_after_mp3 _ ".aif".data 'f' (by decide) (by decide),
        replace_noop_after_mp3 _ ".flac".data 'c' (by decide) (by decide)]
      exact isMp3Format_append_mp3 _
    | false =>
      cases haiff : jsEndsWith (jsToLower s) ".aiff".data with
      | true =>
        rw [losslessToMp3Filename, replace_noop_of_not_ends _ _ hwav,
          replace_fires_of_ends _ _ haiff,
          replace_noop_after_mp3 _ ".aif".data 'f' (by decide) (by decide),
          replace_noop_after_mp3 _ ".flac".data 'c' (by decide) (by decide)]
        exact isMp3Format_append_mp3 _
      | false =>
        cases haif : jsEndsWith (jsToLower s) ".aif".data with
        | true =>
          rw [losslessToMp3Filename, replace_noop_of_not_ends _ _ hwav,
            replace_noop_of_not_ends _ _ haiff,
            replace_fires_of_ends _ _ haif,
            replace_noop_after_mp3 _ ".flac".data 'c' (by decide) (by decide)]
          exact isMp3Format_append_mp3 _
        | false =>
          cases hflac : jsEndsWith (jsToLower s) ".flac".data with
          | true =>
            rw [losslessToMp3Filename, replace_noop_of_not_ends _ _ hwav,
              replace_noop_of_not_ends _ _ haiff,
              replace_noop_of_not_ends _ _ haif,
              replace_fires_of_ends _ _ hflac]
            exact isMp3Format_append_mp3 _
          | false =>
            exfalso
            rw [isLosslessFormat] at hl
            simp only [hwav, haiff, haif, hflac, Bool.or_self, Bool.or_false] at hl
            cases hl
  · intro hl
    rw [isLosslessFormat] at hl
    simp only [Bool.or_eq_false_iff] at hl
    obtain ⟨⟨⟨hwav, haiff⟩, haif⟩, hflac⟩ := hl
    rw [losslessToMp3Filename, replace_noop_of_not_ends _ _ hwav,
      replace_noop_of_not_ends _ _ haiff, replace_noop_of_not_ends _ _ haif,
      replace_noop_of_not_ends _ _ hflac]

/-- Witness for C10 at concrete lossless and non-lossless filenames. -/
theorem losslessToMp3Filename_spec_witness :
    (isLosslessFormat "track.WAV".data = true ∧
      isMp3Format (losslessToMp3Filename "track.WAV".data) = true) ∧
    (isLosslessFormat "track.mp3".data = false ∧
      losslessToMp3Filename "track.mp3".data = "track.mp3".data) :=
  ⟨⟨by decide, (losslessToMp3Filename_spec "track.WAV".data).1 (by decide)⟩,
    ⟨by decide, (losslessToMp3Filename_spec "track.mp3".data).2 (by decide)⟩⟩

/-! ### Gate-loop composition lemmas -/

/-- Running the gate loop over a concatenation whose first part completes
successfully continues on the second part from the reached state. -/
theorem runGates_append_ok (h : HandlerSpec) (st st' : DownloaderState)
    (pre rest : List (Option String)) (tr : List TraceEv)
    (hp : runGates h st pre = (tr, .ok st')) :
    runGates h st (pre ++ rest) =
      (tr ++ (runGates h st' rest).1, (runGates h st' rest).2) := by
  induction pre generalizing st tr with
  | nil =>
    rw [runGates] at hp
    cases hp
    simp
  | cons x pre ih =>
    cases x with
    | none =>
      rw [runGates] at hp
      rw [List.cons_append, runGates]
      exact ih st tr hp
    | some tok =>
      by_cases htok : tok = ""
      · subst htok
        rw [runGates, if_pos rfl] at hp
        rw [List.cons_append, runGates, if_pos rfl]
        exact ih st tr hp
      · rw [runGates, if_neg htok] at hp
        rw [List.cons_append, runGates, if_neg htok]
        cases hg : gates h tok with
        | undefinedLookup => rw [hg] at hp; simp at hp
        | inherited name =>
          rw [hg] at hp
          dsimp only at hp ⊢
          cases hpr : protoInvokeResult name with
          | error e => rw [hpr] at hp; simp at hp
          | ok u =>
            rw [hpr] at hp
            dsimp only at hp ⊢
            rw [Prod.mk.injEq] at hp
            obtain ⟨h1, h2⟩ := hp
            subst h1
            have hx : runGates h st pre = ((runGates h st pre).1, Except.ok st') := by
              rw [← h2]
            rw [ih st _ hx]
            simp
        | handler gate =>
          rw [hg] at hp
          dsimp only at hp ⊢
          cases hr : gate st with
          | error e => rw [hr] at hp; simp at hp
          | ok st2 =>
            rw [hr] at hp
            dsimp only at hp ⊢
            rw [Prod.mk.injEq] at hp
            obtain ⟨h1, h2⟩ := hp
            subst h1
            have hx : runGates h st2 pre = ((runGates h st2 pre).1, Except.ok st') := by
              rw [← h2]
            rw [ih st2 _ hx]
            simp

/-- Running the gate loop over a concatenation whose first part throws
never reaches the second part. -/
theorem runGates_append_error (h : HandlerSpec) (st : DownloaderState)
    (pre rest : List (Option String)) (tr : List TraceEv) (e : String)
    (hp : runGates h st pre = (tr, .error e)) :
    runGates h st (pre ++ rest) = (tr, .error e) := by
  induction pre generalizing st tr with
  | nil => rw [runGates] at hp; simp at hp
  | cons x pre ih =>
    cases x with
    | none =>
      rw [runGates] at hp
      rw [List.cons_append, runGates]
      exact ih st tr hp
    | some tok =>
      by_cases htok : tok = ""
      · subst htok
        rw [runGates, if_pos rfl] at hp
        rw [List.cons_append, runGates, if_pos rfl]
        exact ih st tr hp
      · rw [runGates, if_neg htok] at hp
        rw [List.cons_append, runGates, if_neg htok]
        cases hg : gates h tok with
        | undefinedLookup => rw [hg] at hp; dsimp only at hp ⊢; exact hp
        | inherited name =>
          rw [hg] at hp
          dsimp only at hp ⊢
          cases hpr : protoInvokeResult name with
          | error e2 => rw [hpr] at hp; dsimp only at hp ⊢; exact hp
          | ok u =>
            rw [hpr] at hp
            dsimp only at hp ⊢
            rw [Prod.mk.injEq] at hp
            obtain ⟨h1, h2⟩ := hp
            subst h1
            have hx : runGates h st pre = ((runGates h st pre).1, Except.error e) := by
              rw [← h2]
            rw [ih st _ hx]
        | handler gate =>
          rw [hg] at hp
          dsimp only at hp ⊢
          cases hr : gate st with
          | error e2 => rw [hr] at hp; dsimp only at hp ⊢; exact hp
          | ok st2 =>
            rw [hr] at hp
            dsimp only at hp ⊢
            rw [Prod.mk.injEq] at hp
            obtain ⟨h1, h2⟩ := hp
            subst h1
            have hx : runGates h st2 pre = ((runGates h st2 pre).1, Except.error e) := by
              rw [← h2]
            rw [ih st2 _ hx]

/-! ### Claim C1 — unrecognized gate tokens fail fast -/

/-- Counterexample to C1 as stated: the token "constructor" is non-empty
and has no entry in the fixed dispatch table, yet the JS lookup finds the
inherited `Object` constructor — a truthy value — so the `if (!gate) throw`
guard does not fire: no no-handler error is thrown, calling the inherited
value returns normally, and the traversal proceeds to invoke the handler of
the later dw token, completing without any error at all. -/
theorem unknown_gate_constructor_counterexample :
    ("constructor" ≠ "" ∧ "constructor" ∉ gateTokens) ∧
      runGates idHandlers ⟨none⟩
          [some "email", some "constructor", some "dw"] =
        ([.invoke "email", .settled "email", .delay 1000,
            .invokeInherited "constructor", .delay 1000,
            .invoke "dw", .settled "dw", .delay 1000],
          .ok ⟨none⟩) :=
  ⟨⟨by decide, by decide⟩, rfl⟩

/-- Claim C1 as amended: if the discovered gate-token sequence contains a
non-empty token that is absent from the fixed dispatch table and is not a
property name inherited from `Object.prototype`, then — provided traversal
reaches it, i.e. the tokens before it ran without throwing — `downloadAudio`
throws the no-handler error right there: the produced trace is exactly the
trace `tr` of the earlier tokens (so no handler of any later token is
invoked), and the thrown message contains the unrecognized token literally.
(For a token naming an inherited `Object.prototype` member the lookup is
truthy, the guard does not fire, and the engine instead calls the inherited
junk value.) -/
theorem downloadAudio_unknown_gate_fails (h : HandlerSpec)
    (st st' : DownloaderState) (pre post : List (Option String)) (tok : String)
    (tr : List TraceEv) (htok : tok ≠ "") (hunknown : tok ∉ gateTokens)
    (hproto : tok ∉ objectProtoProps)
    (hpre : runGates h st pre = (tr, .ok st')) :
    downloadAudio h st (pre ++ some tok :: post) =
        (tr, .error (noHandlerMsg tok)) ∧
      tok.data <:+: (noHandlerMsg tok).data := by
  constructor
  · have hg : gates h tok = .undefinedLookup := by
      rw [gates, if_neg hunknown, if_neg hproto]
    have hstep : runGates h st' (some tok :: post) =
        ([], .error (noHandlerMsg tok)) := by
      rw [runGates, if_neg htok, hg]
    rw [downloadAudio]
    rw [runGates_append_ok h st st' pre _ tr hpre, hstep]
    simp [Except.map]
  · exact ⟨"No handler found for gate ".data,
      (". Please create an issue about this on " ++ REPO_URL ++ "/issues").data,
      by simp [noHandlerMsg]⟩

/-- Witness for the amended C1: the sequence email, unknown_gate, dw fails
at the unknown token with only the email gate having run. -/
theorem downloadAudio_unknown_gate_fails_witness :
    ("unknown_gate" ≠ "" ∧ "unknown_gate" ∉ gateTokens ∧
      "unknown_gate" ∉ objectProtoProps ∧
      runGates idHandlers ⟨none⟩ [some "email"] =
        ([.invoke "email", .settled "email", .delay 1000], .ok ⟨none⟩)) ∧
    downloadAudio idHandlers ⟨none⟩ ([some "email"] ++ some "unknown_gate" :: [some "dw"]) =
        ([.invoke "email", .settled "email", .delay 1000],
          .error (noHandlerMsg "unknown_gate")) ∧
      "unknown_gate".data <:+: (noHandlerMsg "unknown_gate").data :=
  ⟨⟨by decide, by decide, by decide, rfl⟩,
    downloadAudio_unknown_gate_fails idHandlers ⟨none⟩ ⟨none⟩ [some "email"]
      [some "dw"] "unknown_gate" _ (by decide) (by decide) (by decide) rfl⟩

/-! ### Claim C2 — empty tokens are skipped -/

/-- Claim C2: a null or empty token at any position of the gate-token
sequence is skipped: the traversal (its trace — so no handler is invoked for
that token — and its result — so no error is raised because of it) is
identical to the traversal of the sequence without that token. -/
theorem gate_empty_tokens_skipped (h : HandlerSpec) (st : DownloaderState)
    (pre post : List (Option String)) :
    runGates h st (pre ++ none :: post) = runGates h st (pre ++ post) ∧
      runGates h st (pre ++ some "" :: post) = runGates h st (pre ++ post) := by
  cases hp : runGates h st pre with
  | mk tr res =>
    cases res with
    | error e =>
      rw [runGates_append_error h st pre (none :: post) tr e hp,
        runGates_append_error h st pre (some "" :: post) tr e hp,
        runGates_append_error h st pre post tr e hp]
      exact ⟨rfl, rfl⟩
    | ok st' =>
      have hnone : runGates h st' (none :: post) = runGates h st' post := by
        rw [runGates]
      have hempty : runGates h st' (some "" :: post) = runGates h st' post := by
        rw [runGates, if_pos rfl]
      rw [runGates_append_ok h st st' pre (none :: post) tr hp,
        runGates_append_ok h st st' pre (some "" :: post) tr hp,
        runGates_append_ok h st st' pre post tr hp, hnone, hempty]
      exact ⟨rfl, rfl⟩

/-! ### Claim C3 — gates run strictly in discovered order -/

/-- Claim C3: for a discovered sequence of recognized gate tokens whose
traversal completes without an exception, the scheduling trace is exactly
one block per token, in the discovered order: the handler is invoked, its
returned promise settles, and the fixed 1000 ms settle delay runs before the
next token's handler is invoked — no overlap, reordering or parallelism. -/
theorem gate_handlers_run_in_order (h : HandlerSpec) (st st' : DownloaderState)
    (toks : List String) (hrec : ∀ t ∈ toks, t ≠ "" ∧ t ∈ gateTokens)
    (hok : (runGates h st (toks.map some)).2 = .ok st') :
    (runGates h st (toks.map some)).1 = sequentialGateTrace toks := by
  induction toks generalizing st with
  | nil => rfl
  | cons t toks ih =>
    obtain ⟨hne, hmem⟩ := hrec t (List.mem_cons_self t toks)
    have hg : gates h t = .handler (h t) := by rw [gates, if_pos hmem]
    rw [List.map_cons, runGates, if_neg hne, hg] at hok ⊢
    dsimp only at hok ⊢
    cases hh : h t st with
    | error e =>
      rw [hh] at hok
      dsimp only at hok
      exact absurd hok (by simp)
    | ok st2 =>
      rw [hh] at hok
      dsimp only at hok ⊢
      rw [ih st2 (fun u hu => hrec u (List.mem_cons_of_mem t hu)) hok]
      simp [sequentialGateTrace]

/-- Witness for C3: the sequence email, sc, dw with successful handlers
produces the three blocks in order. -/
theorem gate_handlers_run_in_order_witness :
    (∀ t ∈ ["email", "sc", "dw"], t ≠ "" ∧ t ∈ gateTokens) ∧
    (runGates idHandlers ⟨none⟩ (["email", "sc", "dw"].map some)).2 =
      .ok ⟨none⟩ ∧
    (runGates idHandlers ⟨none⟩ (["email", "sc", "dw"].map some)).1 =
      sequentialGateTrace ["email", "sc", "dw"] :=
  ⟨by decide, rfl,
    gate_handlers_run_in_order idHandlers ⟨none⟩ ⟨none⟩ ["email", "sc", "dw"]
      (by decide) rfl⟩

/-! ### Claim C4 — resolved filename contract and the no-file failure -/

/-- Claim C4: when every gate completes without an exception,
`downloadAudio` resolves (does not throw) with the `downloadFilename` the
terminal download handler recorded as a side effect; when none was recorded
(`null`), the caller `runDownloadProcess` puts the job in the distinguished
no-file-received error state rather than the thrown-error state, and a
recorded non-empty filename makes the job proceed with that filename. -/
theorem downloadAudio_filename_contract (h : HandlerSpec)
    (gateNames : List (Option String)) (st' : DownloaderState)
    (hok : (runGates h ⟨none⟩ gateNames).2 = .ok st') :
    (downloadAudio h ⟨none⟩ gateNames).2 = .ok st'.downloadFilename ∧
      (st'.downloadFilename = none →
        runDownloadProcess h gateNames = .noFileError) ∧
      (∀ f, st'.downloadFilename = some f → f ≠ "" →
        runDownloadProcess h gateNames = .ready f) := by
  have hda : (downloadAudio h ⟨none⟩ gateNames).2 = .ok st'.downloadFilename := by
    rw [downloadAudio]
    dsimp only
    rw [hok]
    rfl
  refine ⟨hda, ?_, ?_⟩
  · intro hn
    rw [runDownloadProcess, hda, hn]
  · intro f hf hne
    rw [runDownloadProcess, hda, hf]
    dsimp only
    rw [if_neg hne]

/-- Witness for C4: a traversal of the single dw gate that records
track.wav resolves with it and the job proceeds; the same theorem applied to
a traversal recording nothing yields the no-file error state. -/
theorem downloadAudio_filename_contract_witness :
    ((runGates (dwRecordingHandlers "track.wav") ⟨none⟩ [some "dw"]).2 =
        .ok ⟨some "track.wav"⟩ ∧
      (downloadAudio (dwRecordingHandlers "track.wav") ⟨none⟩ [some "dw"]).2 =
        .ok (some "track.wav") ∧
      runDownloadProcess (dwRecordingHandlers "track.wav") [some "dw"] =
        .ready "track.wav") ∧
    ((runGates idHandlers ⟨none⟩ [some "dw"]).2 = .ok ⟨none⟩ ∧
      runDownloadProcess idHandlers [some "dw"] = .noFileError) :=
  ⟨⟨rfl,
    (downloadAudio_filename_contract (dwRecordingHandlers "track.wav")
      [some "dw"] ⟨some "track.wav"⟩ rfl).1,
    (downloadAudio_filename_contract (dwRecordingHandlers "track.wav")
      [some "dw"] ⟨some "track.wav"⟩ rfl).2.2 "track.wav" rfl (by decide)⟩,
   ⟨rfl,
    (downloadAudio_filename_contract idHandlers [some "dw"] ⟨none⟩ rfl).2.1 rfl⟩⟩

/-! ### Claim C9 — events for other transfer identifiers are ignored -/

/-- Claim C9: a `Browser.downloadProgress` event whose transfer identifier
differs from the currently tracked one — including any event arriving while
no transfer-start has been recorded (`downloadGuid` still null) — leaves the
tracker state entirely unchanged: the recorded filename is not modified, the
completion promise is not resolved, no progress is reported, and no
cancellation error is raised. -/
theorem downloadProgress_ignores_other_guids (st : DwTrackerState)
    (guid : String) (kind : DwProgKind) (hne : st.downloadGuid ≠ some guid) :
    onDownloadProgress st guid kind = st := by
  have hc : ¬(st.downloadGuid = some guid ∧ jsStrTruthy st.downloadFilename) :=
    fun hc => hne hc.1
  rw [onDownloadProgress.eq_def, if_neg hc]

/-- Witness for C9: a completed event for an unrelated transfer before any
transfer-start leaves the fresh tracker untouched. -/
theorem downloadProgress_ignores_other_guids_witness :
    initialTracker.downloadGuid ≠ some "other-transfer" ∧
      onDownloadProgress initialTracker "other-transfer" .completed =
        initialTracker :=
  ⟨by decide,
    downloadProgress_ignores_other_guids initialTracker "other-transfer"
      .completed (by decide)⟩

/-! ### Claim C6 — a canceled transfer and the promise that never settles -/

/-- Claim C6 (code bug): after a transfer-start event followed by a terminal
`canceled` event for the same identifier, the puppeteer
`handleDownloadSlide`'s cancellation `throw` executes inside the
`Browser.downloadProgress` listener, so it lands in the event emitter as an
uncaught error while the completion promise the gate awaits is never
settled: `completedWith` stays `none`, hence `Promise.all` — and with it
`downloadAudio` — never rejects (nor resolves), and the session-closing
failure path of `runDownloadProcess` (src/server.ts lines 133-141) is never
reached, contrary to the claimed rejection-plus-close behaviour. -/
theorem canceled_download_never_settles :
    processDwEvents initialTracker
        [.willBegin "guid-1" "track.wav", .progress "guid-1" .canceled] =
      ⟨some "guid-1", some "track.wav", none, [], ["Download was canceled"]⟩ ∧
    downloadPromiseSettled
        [.willBegin "guid-1" "track.wav", .progress "guid-1" .canceled] =
      false := by
  constructor
  · rfl
  · rfl

/-! ### Claim C7 — the download-trigger re-click fallback -/

/-- Counterexample to C7 as stated: in the playwright variant's
download-trigger gate, a run in which the transfer-start signal never
arrives (so in particular does not arrive within the fallback delay)
still clicks the trigger control exactly once — there is no second click. -/
theorem playwright_no_reclick_counterexample :
    noStartWithinFallback none ∧
      playwrightTriggerClicks none = [0] ∧
      (playwrightTriggerClicks none).length = 1 :=
  ⟨(fun _ h => nomatch h), rfl, rfl⟩

/-- Claim C7 as amended: in the puppeteer variant's download-trigger gate,
whenever no transfer-start signal has been observed within the 10-second
fallback delay after the first click, the trigger control is clicked exactly
a second time, at the fallback delay — while the playwright variant clicks
the trigger exactly once in every run and has no re-click fallback. -/
theorem puppeteer_reclick_on_no_start (startAt : Option Nat)
    (h : noStartWithinFallback startAt) :
    puppeteerTriggerClicks startAt = [0, FALLBACK_DELAY_MS] ∧
      ∀ u : Option Nat, playwrightTriggerClicks u = [0] := by
  constructor
  · cases startAt with
    | none => rfl
    | some t =>
      rw [puppeteerTriggerClicks, if_pos (h t rfl)]
  · intro u
    rfl

/-- Witness for the amended C7 at a run whose transfer-start never arrives. -/
theorem puppeteer_reclick_on_no_start_witness :
    noStartWithinFallback none ∧
      puppeteerTriggerClicks none = [0, FALLBACK_DELAY_MS] ∧
      ∀ u : Option Nat, playwrightTriggerClicks u = [0] :=
  ⟨(fun _ h => nomatch h),
    puppeteer_reclick_on_no_start none (fun _ h => nomatch h)⟩

/-! ### Claim C8 — close() and never-initialized sessions -/

/-- Counterexample to C8 as stated: in the src/unnamed/part_003 variant,
`close()` on a session whose initialization method was never called
dereferences the undefined browser field and throws a `TypeError` — it is
not a no-op. -/
theorem close_uninitialized_counterexample :
    closePart003 ⟨none⟩ = .typeError :=
  rfl

/-- Claim C8 as amended: `close()` of the playwright variant never throws in
any prior state — it is a no-op when the session was never initialized, and
a second call after a successful close also does not throw; the
src/unnamed/part_003 variant's `close()` is safe (including called twice)
once the session has been initialized, but throws when it never was. -/
theorem close_never_throws_amended (s : SessionState) :
    (∃ s', closePlaywright s = .ok s' ∧ ∃ s'', closePlaywright s' = .ok s'') ∧
      (∀ b : Bool, ∃ u, closePart003 ⟨some b⟩ = .ok u ∧
        ∃ u', closePart003 u = .ok u') := by
  constructor
  · cases hb : s.browser with
    | none =>
      refine ⟨s, ?_, s, ?_⟩ <;> rw [closePlaywright, hb]
    | some b =>
      exact ⟨⟨some true⟩, by rw [closePlaywright, hb], ⟨some true⟩, rfl⟩
  · intro b
    exact ⟨⟨some true⟩, rfl, ⟨some true⟩, rfl⟩
